import Mathlib

/-!
Verification development for the VisionTalk chat application
(src/src/App.tsx and src/src/services/gemini.ts).

The TypeScript sources are shallowly embedded: the two stateless
request-building functions of `services/gemini.ts` become pure Lean
functions on record types mirroring the request/response envelopes, and
the stateful UI handlers of `App.tsx` (`handleSend`, `clearChat`,
`downloadConversation`) become explicit state-passing functions on an
`AppState` record, with the outcomes of the two awaited remote calls
supplied by an oracle record. JS strings are Lean `String`s; JS
`undefined`/`null` become `Option`; a thrown promise becomes
`Except.error`.
-/

namespace VisionTalk

/-- Message role, the string union type `"user" | "model"` of
`services/gemini.ts`. -/
inductive Role
  | user
  | model
deriving DecidableEq, Repr

/-- The underlying role string. -/
def Role.toRoleString : Role → String
  | .user => "user"
  | .model => "model"

/-- The JS `role.toUpperCase()` applied to the two possible role strings
(`"user" → "USER"`, `"model" → "MODEL"`). -/
def Role.displayUpper : Role → String
  | .user => "USER"
  | .model => "MODEL"

/-- The `Message` interface of `services/gemini.ts`: role, text, optional
base64 image and optional base64 audio. -/
structure Message where
  role : Role
  text : String
  image : Option String := none
  audio : Option String := none
deriving DecidableEq, Repr

/-- The status union `'idle' | 'analyzing' | 'speaking'` of `App.tsx`. -/
inductive Status
  | idle
  | analyzing
  | speaking
deriving DecidableEq, Repr

/-- Core of the JS `String.split(",")`: split a character list at every
comma, keeping empty segments, as `"a,b,c".split(",")` does. The second
argument accumulates the current segment in reverse. -/
def splitCommaCore : List Char → List Char → List (List Char)
  | [], acc => [acc.reverse]
  | c :: cs, acc =>
    if c = ',' then acc.reverse :: splitCommaCore cs []
    else splitCommaCore cs (c :: acc)

/-- Model of the JS `s.split(",")` used in `describeImage`. -/
def jsSplitComma (s : String) : List String :=
  (splitCommaCore s.data []).map String.mk

/-- An inline binary payload of a request part
(`inlineData: { mimeType, data }`); `data` is `base64Image.split(",")[1]`,
which is `undefined` when the string holds no comma, hence an `Option`. -/
structure ReqInlineData where
  mimeType : String
  data : Option String
deriving DecidableEq, Repr

/-- One part of a request content entry: a text part or an inline-data
part. -/
structure ReqPart where
  text : Option String := none
  inlineData : Option ReqInlineData := none
deriving DecidableEq, Repr

/-- One entry of the request `contents` array: an optional role tag and a
list of parts (the current-turn entry `{ parts }` carries no role). -/
structure ReqContent where
  role : Option Role := none
  parts : List ReqPart
deriving DecidableEq, Repr

/-- The vision model identifier constant of `services/gemini.ts`. -/
def VISION_MODEL : String := "gemini-3.1-pro-preview"

/-- The TTS model identifier constant of `services/gemini.ts`. -/
def TTS_MODEL : String := "gemini-2.5-flash-preview-tts"

/-- The generation request assembled by `describeImage`. -/
structure VisionRequest where
  model : String
  contents : List ReqContent
  systemInstruction : String
deriving DecidableEq, Repr

/-- The request-assembly of `describeImage(base64Image, prompt, history,
language)` in `services/gemini.ts`: an optional inline image part (JS
truthiness: the empty string yields `null`), the history mapped to
role-tagged single-text-part entries, a system instruction fixing the
language, and the current-turn parts pushed in order (image part if
present, then the prompt text). -/
def describeImageRequest (base64Image prompt : String) (history : List Message)
    (language : String) : VisionRequest :=
  let imagePart : Option ReqPart :=
    if base64Image ≠ "" then
      some { inlineData := some { mimeType := "image/jpeg",
                                  data := (jsSplitComma base64Image)[1]? } }
    else none
  let historyParts : List ReqContent :=
    history.map fun m => { role := some m.role, parts := [{ text := some m.text }] }
  let systemInstruction : String :=
    "You are a helpful AI assistant. Always respond in " ++ language ++
      ". If an image is provided, analyze it thoroughly."
  let parts : List ReqPart :=
    (match imagePart with
      | some ip => [ip]
      | none => []) ++ [{ text := some prompt }]
  { model := VISION_MODEL,
    contents := historyParts ++ [{ parts := parts }],
    systemInstruction := systemInstruction }

/-- Inline data of a response part; both fields are optional in the
response envelope. -/
structure InlineData where
  mimeType : Option String := none
  data : Option String := none
deriving DecidableEq, Repr

/-- One part of a response candidate's content. -/
structure RespPart where
  text : Option String := none
  inlineData : Option InlineData := none
deriving DecidableEq, Repr

/-- A candidate's `content`, whose `parts` array is itself optional. -/
structure RespContent where
  parts : Option (List RespPart) := none
deriving DecidableEq, Repr

/-- One response candidate with its optional content. -/
structure Candidate where
  content : Option RespContent := none
deriving DecidableEq, Repr

/-- A generation response: an optional candidates array. -/
structure GenResponse where
  candidates : Option (List Candidate) := none
deriving DecidableEq, Repr

/-- The result extraction of `generateSpeech` in `services/gemini.ts`:
the optional chain `response.candidates?.[0]?.content?.parts?.[0]?.inlineData?.data`. -/
def generateSpeechResult (response : GenResponse) : Option String :=
  ((((response.candidates.bind List.head?).bind Candidate.content).bind
        RespContent.parts).bind List.head?).bind
    fun p => p.inlineData.bind InlineData.data

/-- Modelled from the spec: the first inline audio payload found anywhere
in the response, scanning all candidates and all their parts in order.
Used to compare the spec's description with the code's extraction. -/
def firstInlineDataAnywhere (response : GenResponse) : Option String :=
  (((response.candidates.getD []).map fun c =>
      (c.content.bind RespContent.parts).getD []).flatten).findSome? fun p =>
    p.inlineData.bind InlineData.data

/-- The component state of `App` in `App.tsx` that the modelled handlers
read or write: the message list, the text input, the pending image, the
loading flag, the TTS toggle, the selected language and the status. -/
structure AppState where
  messages : List Message
  input : String
  image : Option String
  isLoading : Bool
  isTtsEnabled : Bool
  selectedLanguage : String
  status : Status
deriving DecidableEq, Repr

/-- One remote call issued during a turn: the `describeImage` call with
its arguments, or the `generateSpeech` call with its text. -/
inductive RemoteCall
  | analyze (image prompt : String) (history : List Message) (language : String)
  | speak (text : String)
deriving DecidableEq, Repr

/-- Environment oracle for one turn: the outcome of the awaited
`describeImage` call (`Except.error` models a thrown promise, `Option`
the possibly-`undefined` `response.text`) and likewise the outcome of
the awaited `generateSpeech` call. -/
structure TurnOracle where
  describeOutcome : Except Unit (Option String)
  speechOutcome : Except Unit (Option String)
deriving Repr

/-- Result of running `handleSend` to quiescence: the final component
state, the remote calls issued in order, and the statuses entered in
order (each `setStatus` value, including the `idle` set by the audio
`onended` callback). -/
structure TurnResult where
  state : AppState
  calls : List RemoteCall
  statuses : List Status
deriving DecidableEq, Repr

/-- The `handleSend(textOverride?)` handler of `App.tsx`, run to
quiescence against the oracle `o`. JS `textOverride || input` makes an
empty override fall back to the input; the guard `if (!text && !image)
return` is the empty-submission no-op; the user message, loading flag
and `analyzing` status are set before the awaited `describeImage` call,
whose history argument is the pre-append `messages`; a thrown call is
caught, appending the fixed error message and resetting to `idle`; on
success the model message is appended (empty or missing text replaced by
the fixed fallback) and, when TTS is enabled, the status passes through
`speaking` and `generateSpeech` is awaited before returning to `idle`. -/
def handleSend (s : AppState) (textOverride : Option String) (o : TurnOracle) :
    TurnResult :=
  let text : String :=
    match textOverride with
    | some t => if t = "" then s.input else t
    | none => s.input
  if text = "" ∧ s.image = none then
    { state := s, calls := [], statuses := [] }
  else
    let userMsg : Message :=
      { role := .user,
        text := if text = "" then "Analyze this image" else text,
        image := s.image }
    let s1 : AppState :=
      { s with messages := s.messages ++ [userMsg], input := "",
               isLoading := true, status := .analyzing }
    let analyzeCall : RemoteCall :=
      .analyze (s.image.getD "")
        (if text = "" then "What do you see in this image?" else text)
        s.messages s.selectedLanguage
    match o.describeOutcome with
    | .error _ =>
      { state :=
          { s1 with
            messages := s1.messages ++
              [{ role := .model,
                 text := "Sorry, I encountered an error processing your request." }],
            status := .idle, isLoading := false },
        calls := [analyzeCall], statuses := [.analyzing, .idle] }
    | .ok t =>
      let responseText : String :=
        match t with
        | some rt => if rt = "" then "I couldn\x27t analyze the image." else rt
        | none => "I couldn\x27t analyze the image."
      let s2 : AppState :=
        { s1 with messages := s1.messages ++ [{ role := .model, text := responseText }] }
      if s.isTtsEnabled then
        match o.speechOutcome with
        | .error _ =>
          { state :=
              { s2 with
                messages := s2.messages ++
                  [{ role := .model,
                     text := "Sorry, I encountered an error processing your request." }],
                status := .idle, isLoading := false },
            calls := [analyzeCall, .speak responseText],
            statuses := [.analyzing, .speaking, .idle] }
        | .ok _ =>
          { state := { s2 with status := .idle, isLoading := false },
            calls := [analyzeCall, .speak responseText],
            statuses := [.analyzing, .speaking, .idle] }
      else
        { state := { s2 with status := .idle, isLoading := false },
          calls := [analyzeCall], statuses := [.analyzing, .idle] }

/-- The `clearChat` handler of `App.tsx`: `setMessages([])`,
`setImage(null)`, `setStatus('idle')`. -/
def clearChat (s : AppState) : AppState :=
  { s with messages := [], image := none, status := .idle }

/-- The transcript text assembled by `downloadConversation` in `App.tsx`:
each message rendered as `ROLE: text` with the role upper-cased, joined
by blank lines. -/
def conversationExportContent (messages : List Message) : String :=
  String.intercalate "\n\n" (messages.map fun m => m.role.displayUpper ++ ": " ++ m.text)

/-- The `disabled` condition of the send button in `App.tsx`:
`isLoading || (!input && !image)`. -/
def sendButtonDisabled (s : AppState) : Bool :=
  s.isLoading || (s.input == "" && s.image.isNone)

/-- The two user interactions of `App.tsx` that call `handleSend()`:
pressing Enter in the text input, and clicking the send button. -/
inductive SubmitEvent
  | enterKey
  | clickSend
deriving DecidableEq, Repr

/-- Whether the event invokes `handleSend` at all: the Enter key handler
`onKeyDown` is unconditional, while a disabled button fires no click. -/
def submitInvokesSend : AppState → SubmitEvent → Bool
  | _, .enterKey => true
  | s, .clickSend => !sendButtonDisabled s

/-- Whether the event begins a turn: `handleSend` is invoked and its
empty-submission guard passes, so remote calls are issued. -/
def beginsTurn (s : AppState) (e : SubmitEvent) : Bool :=
  submitInvokesSend s e && !(s.input == "" && s.image.isNone)

/-! Helper lemmas. -/

/-- Splitting a list with no comma yields a single segment. -/
theorem splitCommaCore_no_comma (l : List Char) (acc : List Char) (h : ',' ∉ l) :
    splitCommaCore l acc = [acc.reverse ++ l] := by
  induction l generalizing acc with
  | nil => simp [splitCommaCore]
  | cons c cs ih =>
    have hc : ¬c = ',' := fun hcc => h (hcc ▸ List.mem_cons_self c cs)
    have hcs : ',' ∉ cs := fun hm => h (List.mem_cons_of_mem _ hm)
    simp [splitCommaCore, hc, ih (c :: acc) hcs]

/-- Splitting at the first comma of `l ++ ',' :: r` when `l` holds no
comma: the first segment is `l` (behind the accumulator). -/
theorem splitCommaCore_append_comma (l r acc : List Char) (h : ',' ∉ l) :
    splitCommaCore (l ++ ',' :: r) acc = (acc.reverse ++ l) :: splitCommaCore r [] := by
  induction l generalizing acc with
  | nil => simp [splitCommaCore]
  | cons c cs ih =>
    have hc : ¬c = ',' := fun hcc => h (hcc ▸ List.mem_cons_self c cs)
    have hcs : ',' ∉ cs := fun hm => h (List.mem_cons_of_mem _ hm)
    simp [splitCommaCore, hc, ih (c :: acc) hcs]

/-- The modelled `split(",")` on a well-formed data URI `p ++ "," ++ d`
(neither side holding a comma) yields exactly the two components. -/
theorem jsSplitComma_strip (p d : String) (hp : ',' ∉ p.data) (hd : ',' ∉ d.data) :
    jsSplitComma (p ++ "," ++ d) = [p, d] := by
  have hdata : (p ++ "," ++ d).data = p.data ++ ',' :: d.data := by
    simp [String.data_append]
  unfold jsSplitComma
  rw [hdata, splitCommaCore_append_comma p.data d.data [] hp,
    splitCommaCore_no_comma d.data [] hd]
  rfl

/-- Taking one element past a left factor of an append. -/
theorem take_append_cons {α : Type} (l : List α) (a : α) (rest : List α) :
    (l ++ a :: rest).take (l.length + 1) = l ++ [a] := by
  induction l with
  | nil => simp
  | cons x xs ih => simp [ih]

/-! Claim theorems. -/

/-- C1 counterexample: with the loading flag set and non-empty input,
pressing Enter still begins a turn, refuting the claim that while
`isLoading` is true no user submission path can start a new turn. -/
theorem enterKey_starts_turn_while_loading :
    ¬ ((({ messages := [], input := "hi", image := none, isLoading := true,
           isTtsEnabled := true, selectedLanguage := "English",
           status := Status.analyzing } : AppState).isLoading = true →
        beginsTurn
          { messages := [], input := "hi", image := none, isLoading := true,
            isTtsEnabled := true, selectedLanguage := "English",
            status := Status.analyzing } SubmitEvent.enterKey = false)) := by
  decide

/-- C1 (amended): while `isLoading` is true the send button is disabled,
so the click-send path cannot begin a turn; the Enter-key path, which
does not check `isLoading`, can. -/
theorem sendButton_blocked_while_loading (s : AppState) (h : s.isLoading = true) :
    beginsTurn s SubmitEvent.clickSend = false := by
  simp [beginsTurn, submitInvokesSend, sendButtonDisabled, h]

/-- C1 witness: the amended theorem applied to a concrete loading state. -/
theorem sendButton_blocked_while_loading_witness :
    beginsTurn
      { messages := [], input := "hi", image := none, isLoading := true,
        isTtsEnabled := true, selectedLanguage := "English",
        status := Status.analyzing } SubmitEvent.clickSend = false :=
  sendButton_blocked_while_loading
    { messages := [], input := "hi", image := none, isLoading := true,
      isTtsEnabled := true, selectedLanguage := "English",
      status := Status.analyzing } rfl

/-- A response whose only inline audio payload sits in the second part of
the first candidate (first part is text-only). -/
def audioInSecondPart : GenResponse :=
  ⟨some [⟨some ⟨some [⟨some "thinking", none⟩, ⟨none, some ⟨none, some "AUDIO64"⟩⟩]⟩⟩]⟩

/-- C2 counterexample: on `audioInSecondPart` the extraction of
`generateSpeech` returns nothing although the response contains an inline
audio payload, refuting both the "first found anywhere" and the "nothing
exactly when absent" clauses. -/
theorem generateSpeech_misses_second_part :
    generateSpeechResult audioInSecondPart = none ∧
      firstInlineDataAnywhere audioInSecondPart = some "AUDIO64" := by
  exact ⟨rfl, rfl⟩

/-- C2 (amended): `generateSpeech` returns the inline data carried by the
first part of the first candidate's content, and returns nothing whenever
any link of that chain is absent — even if a later part or candidate holds
inline audio. -/
theorem generateSpeechResult_firstPart_only (response : GenResponse) :
    generateSpeechResult response =
      match response.candidates with
      | some (c :: _) =>
        match c.content with
        | some ct =>
          match ct.parts with
          | some (p :: _) => p.inlineData.bind InlineData.data
          | some [] => none
          | none => none
        | none => none
      | some [] => none
      | none => none := by
  rcases response with ⟨cands⟩
  rcases cands with _ | ⟨cs⟩
  · rfl
  rcases cs with _ | ⟨c, rest⟩
  · rfl
  rcases c with ⟨ct⟩
  rcases ct with _ | ⟨ct⟩
  · rfl
  rcases ct with ⟨ps⟩
  rcases ps with _ | ⟨ps⟩
  · rfl
  rcases ps with _ | ⟨p, prest⟩ <;> rfl

/-- C5: submitting with empty text and no pending image leaves the
conversation, the pending attachment and the status unchanged, and issues
no remote call. -/
theorem emptySubmit_noop (s : AppState) (o : TurnOracle)
    (ht : s.input = "") (hi : s.image = none) :
    (handleSend s none o).state.messages = s.messages ∧
    (handleSend s none o).state.image = s.image ∧
    (handleSend s none o).state.status = s.status ∧
    (handleSend s none o).calls = [] := by
  simp [handleSend, ht, hi]

/-- C5 witness: the no-op theorem applied to a concrete empty submission. -/
theorem emptySubmit_noop_witness :
    (handleSend
        { messages := [], input := "", image := none, isLoading := false,
          isTtsEnabled := true, selectedLanguage := "English",
          status := Status.idle } none
        { describeOutcome := Except.ok (some "hello"),
          speechOutcome := Except.ok none }).state.messages =
      ({ messages := [], input := "", image := none, isLoading := false,
         isTtsEnabled := true, selectedLanguage := "English",
         status := Status.idle } : AppState).messages ∧
    (handleSend
        { messages := [], input := "", image := none, isLoading := false,
          isTtsEnabled := true, selectedLanguage := "English",
          status := Status.idle } none
        { describeOutcome := Except.ok (some "hello"),
          speechOutcome := Except.ok none }).state.image =
      ({ messages := [], input := "", image := none, isLoading := false,
         isTtsEnabled := true, selectedLanguage := "English",
         status := Status.idle } : AppState).image ∧
    (handleSend
        { messages := [], input := "", image := none, isLoading := false,
          isTtsEnabled := true, selectedLanguage := "English",
          status := Status.idle } none
        { describeOutcome := Except.ok (some "hello"),
          speechOutcome := Except.ok none }).state.status =
      ({ messages := [], input := "", image := none, isLoading := false,
         isTtsEnabled := true, selectedLanguage := "English",
         status := Status.idle } : AppState).status ∧
    (handleSend
        { messages := [], input := "", image := none, isLoading := false,
          isTtsEnabled := true, selectedLanguage := "English",
          status := Status.idle } none
        { describeOutcome := Except.ok (some "hello"),
          speechOutcome := Except.ok none }).calls = [] :=
  emptySubmit_noop
    { messages := [], input := "", image := none, isLoading := false,
      isTtsEnabled := true, selectedLanguage := "English",
      status := Status.idle }
    { describeOutcome := Except.ok (some "hello"), speechOutcome := Except.ok none }
    rfl rfl

/-- C6: the transcript export renders each message as an upper-cased
`ROLE: text` line joined by blank lines — on the two-message conversation
it yields exactly the claimed string — and it reads only roles and texts,
so stripping every image and audio payload leaves it unchanged. -/
theorem exportTranscript_spec :
    conversationExportContent
        [{ role := Role.user, text := "hi" }, { role := Role.model, text := "hello" }] =
      "USER: hi\n\nMODEL: hello" ∧
    ∀ msgs : List Message,
      conversationExportContent (msgs.map fun m => { m with image := none, audio := none }) =
        conversationExportContent msgs := by
  constructor
  · rfl
  · intro msgs
    unfold conversationExportContent
    rw [List.map_map]
    rfl

/-- C3: when the text-generation call throws on a submitted turn, exactly
one model message with the fixed error text is appended after the
already-appended user message, and the status returns to idle. -/
theorem inferenceError_appends_one_error_message (s : AppState) (o : TurnOracle)
    (hsubmit : ¬(s.input = "" ∧ s.image = none))
    (herr : o.describeOutcome = Except.error ()) :
    ∃ u : Message, u.role = Role.user ∧
      (handleSend s none o).state.messages =
        s.messages ++
          [u, { role := Role.model,
                text := "Sorry, I encountered an error processing your request." }] ∧
      (handleSend s none o).state.status = Status.idle := by
  refine ⟨{ role := Role.user,
            text := if s.input = "" then "Analyze this image" else s.input,
            image := s.image }, rfl, ?_, ?_⟩ <;>
    simp [handleSend, hsubmit, herr]

/-- C3 witness: the error theorem applied to a concrete turn whose
inference call throws. -/
theorem inferenceError_witness :
    ∃ u : Message, u.role = Role.user ∧
      (handleSend
          { messages := [], input := "hi", image := none, isLoading := false,
            isTtsEnabled := true, selectedLanguage := "English",
            status := Status.idle } none
          { describeOutcome := Except.error (),
            speechOutcome := Except.ok none }).state.messages =
        ({ messages := [], input := "hi", image := none, isLoading := false,
           isTtsEnabled := true, selectedLanguage := "English",
           status := Status.idle } : AppState).messages ++
          [u, { role := Role.model,
                text := "Sorry, I encountered an error processing your request." }] ∧
      (handleSend
          { messages := [], input := "hi", image := none, isLoading := false,
            isTtsEnabled := true, selectedLanguage := "English",
            status := Status.idle } none
          { describeOutcome := Except.error (),
            speechOutcome := Except.ok none }).state.status = Status.idle :=
  inferenceError_appends_one_error_message
    { messages := [], input := "hi", image := none, isLoading := false,
      isTtsEnabled := true, selectedLanguage := "English", status := Status.idle }
    { describeOutcome := Except.error (), speechOutcome := Except.ok none }
    (by decide) rfl

/-- C4 counterexample: with non-empty text, a successful inference call,
TTS enabled and a throwing speech call, the conversation gains a third
message, so it is not true that only the user and model messages are
appended with no other conversation changes. -/
theorem speechError_appends_third_message :
    ({ describeOutcome := Except.ok (some "hello"),
       speechOutcome := Except.error () } : TurnOracle).describeOutcome =
      Except.ok (some "hello") ∧
    ¬ ∃ u m : Message, u.role = Role.user ∧ m.role = Role.model ∧
        (handleSend
            { messages := [], input := "hi", image := none, isLoading := false,
              isTtsEnabled := true, selectedLanguage := "English",
              status := Status.idle } none
            { describeOutcome := Except.ok (some "hello"),
              speechOutcome := Except.error () }).state.messages = [u, m] := by
  refine ⟨rfl, ?_⟩
  rintro ⟨u, m, -, -, h⟩
  have h3 : (handleSend
      { messages := [], input := "hi", image := none, isLoading := false,
        isTtsEnabled := true, selectedLanguage := "English",
        status := Status.idle } none
      { describeOutcome := Except.ok (some "hello"),
        speechOutcome := Except.error () }).state.messages.length = 3 := rfl
  rw [h] at h3
  simp at h3

/-- C4 (amended): a turn with non-empty text appends exactly one user
message first, carrying that text and the pending image; when the
inference call succeeds, exactly one model message follows it, and the
conversation receives nothing else — except that when TTS is enabled and
the speech call throws, one additional fixed-text error message follows
the model message. -/
theorem submitNonEmpty_appends (s : AppState) (o : TurnOracle) (ht : s.input ≠ "") :
    ∃ u : Message, u.role = Role.user ∧ u.text = s.input ∧ u.image = s.image ∧
      (handleSend s none o).state.messages.take (s.messages.length + 1) =
        s.messages ++ [u] ∧
      ∀ r : Option String, o.describeOutcome = Except.ok r →
        ∃ m : Message, m.role = Role.model ∧
          (handleSend s none o).state.messages =
            s.messages ++ [u, m] ++
              (match s.isTtsEnabled, o.speechOutcome with
                | true, Except.error _ =>
                  [{ role := Role.model,
                     text := "Sorry, I encountered an error processing your request." }]
                | _, _ => []) := by
  refine ⟨{ role := Role.user, text := s.input, image := s.image }, rfl, rfl, rfl,
    ?_, ?_⟩
  · rcases o with ⟨dOut, sOut⟩
    rcases dOut with e | t
    · simp [handleSend, ht, take_append_cons]
    · rcases hT : s.isTtsEnabled with _ | _
      · simp [handleSend, ht, hT, take_append_cons]
      · rcases sOut with e | a <;> simp [handleSend, ht, hT, take_append_cons]
  · rintro r hok
    refine ⟨{ role := Role.model,
              text := match r with
                | some rt => if rt = "" then "I couldn\x27t analyze the image." else rt
                | none => "I couldn\x27t analyze the image." }, rfl, ?_⟩
    rcases o with ⟨dOut, sOut⟩
    cases hok
    rcases hT : s.isTtsEnabled with _ | _
    · simp [handleSend, ht, hT]
      cases r <;> rfl
    · rcases sOut with e | a <;> simp [handleSend, ht, hT] <;> cases r <;> rfl

/-- C4 witness: the amended theorem applied to a concrete successful
turn. -/
theorem submitNonEmpty_appends_witness :
    ∃ u : Message, u.role = Role.user ∧ u.text = "hi" ∧ u.image = none ∧
      (handleSend
          { messages := [], input := "hi", image := none, isLoading := false,
            isTtsEnabled := true, selectedLanguage := "English",
            status := Status.idle } none
          { describeOutcome := Except.ok (some "hello"),
            speechOutcome := Except.ok (some "AUDIO") }).state.messages.take 1 =
        [] ++ [u] ∧
      ∀ r : Option String,
        ({ describeOutcome := Except.ok (some "hello"),
           speechOutcome := Except.ok (some "AUDIO") } : TurnOracle).describeOutcome =
          Except.ok r →
        ∃ m : Message, m.role = Role.model ∧
          (handleSend
              { messages := [], input := "hi", image := none, isLoading := false,
                isTtsEnabled := true, selectedLanguage := "English",
                status := Status.idle } none
              { describeOutcome := Except.ok (some "hello"),
                speechOutcome := Except.ok (some "AUDIO") }).state.messages =
            [] ++ [u, m] ++
              (match
                  ({ messages := [], input := "hi", image := none, isLoading := false,
                     isTtsEnabled := true, selectedLanguage := "English",
                     status := Status.idle } : AppState).isTtsEnabled,
                  ({ describeOutcome := Except.ok (some "hello"),
                     speechOutcome := Except.ok (some "AUDIO") } : TurnOracle).speechOutcome with
                | true, Except.error _ =>
                  [{ role := Role.model,
                     text := "Sorry, I encountered an error processing your request." }]
                | _, _ => []) :=
  submitNonEmpty_appends
    { messages := [], input := "hi", image := none, isLoading := false,
      isTtsEnabled := true, selectedLanguage := "English", status := Status.idle }
    { describeOutcome := Except.ok (some "hello"),
      speechOutcome := Except.ok (some "AUDIO") }
    (by decide)

/-- C7: clearing the chat empties the conversation, drops the pending
image and resets the status to idle, from every prior state. -/
theorem clearChat_resets (s : AppState) :
    (clearChat s).messages = [] ∧ (clearChat s).image = none ∧
      (clearChat s).status = Status.idle :=
  ⟨rfl, rfl, rfl⟩

/-- C8: in a turn submitted while speech output is disabled, no
`generateSpeech` call is issued and the status never enters the speaking
state. -/
theorem ttsDisabled_no_speech (s : AppState) (o : TurnOracle) (t : Option String)
    (h : s.isTtsEnabled = false) :
    (∀ txt : String, RemoteCall.speak txt ∉ (handleSend s t o).calls) ∧
      Status.speaking ∉ (handleSend s t o).statuses := by
  rcases o with ⟨dOut, sOut⟩
  unfold handleSend
  constructor
  · intro txt
    dsimp only
    split
    · simp
    · rcases dOut with e | r <;> simp [h]
  · dsimp only
    split
    · simp
    · rcases dOut with e | r <;> simp [h]

/-- C8 witness: the theorem applied to a concrete turn with TTS off. -/
theorem ttsDisabled_no_speech_witness :
    (∀ txt : String, RemoteCall.speak txt ∉
        (handleSend
          { messages := [], input := "hi", image := none, isLoading := false,
            isTtsEnabled := false, selectedLanguage := "English",
            status := Status.idle } none
          { describeOutcome := Except.ok (some "hello"),
            speechOutcome := Except.ok (some "AUDIO") }).calls) ∧
      Status.speaking ∉
        (handleSend
          { messages := [], input := "hi", image := none, isLoading := false,
            isTtsEnabled := false, selectedLanguage := "English",
            status := Status.idle } none
          { describeOutcome := Except.ok (some "hello"),
            speechOutcome := Except.ok (some "AUDIO") }).statuses :=
  ttsDisabled_no_speech
    { messages := [], input := "hi", image := none, isLoading := false,
      isTtsEnabled := false, selectedLanguage := "English", status := Status.idle }
    { describeOutcome := Except.ok (some "hello"),
      speechOutcome := Except.ok (some "AUDIO") }
    none rfl

/-- C9: the request contents built by `describeImage` are the history
turns mapped to role-tagged single-text-part entries, followed by one
untagged entry whose parts are the inline image payload (present exactly
when the image string is non-empty) followed by the prompt text; and on a
well-formed data URI `p ++ "," ++ d` the inline data is exactly the
payload `d`, the prefix having been stripped. -/
theorem describeImage_request_shape (img prompt language : String)
    (history : List Message) :
    (describeImageRequest img prompt history language).contents =
      (history.map fun m =>
        ({ role := some m.role, parts := [{ text := some m.text }] } : ReqContent)) ++
        [{ role := none,
           parts :=
             (if img = "" then []
              else [{ text := none,
                      inlineData := some { mimeType := "image/jpeg",
                                           data := (jsSplitComma img)[1]? } }]) ++
               [{ text := some prompt, inlineData := none }] }] ∧
    ∀ p d : String, ',' ∉ p.data → ',' ∉ d.data → img = p ++ "," ++ d →
      (jsSplitComma img)[1]? = some d := by
  constructor
  · unfold describeImageRequest
    by_cases hi : img = "" <;> simp [hi]
  · rintro p d hp hd rfl
    rw [jsSplitComma_strip p d hp hd]
    rfl

/-- C9 witness: the shape theorem applied to a concrete data-URI image,
prompt, history and language. -/
theorem describeImage_request_shape_witness :
    (describeImageRequest ("data:image/jpeg;base64" ++ "," ++ "QUJD") "look at this"
        [{ role := Role.user, text := "hi" }] "English").contents =
      (([{ role := Role.user, text := "hi" }] : List Message).map fun m =>
        ({ role := some m.role, parts := [{ text := some m.text }] } : ReqContent)) ++
        [{ role := none,
           parts :=
             (if ("data:image/jpeg;base64" ++ "," ++ "QUJD") = "" then []
              else [{ text := none,
                      inlineData := some { mimeType := "image/jpeg",
                                           data := (jsSplitComma
                                             ("data:image/jpeg;base64" ++ "," ++
                                               "QUJD"))[1]? } }]) ++
               [{ text := some "look at this", inlineData := none }] }] ∧
    (jsSplitComma ("data:image/jpeg;base64" ++ "," ++ "QUJD"))[1]? = some "QUJD" :=
  ⟨(describeImage_request_shape ("data:image/jpeg;base64" ++ "," ++ "QUJD")
      "look at this" "English" [{ role := Role.user, text := "hi" }]).1,
   (describeImage_request_shape ("data:image/jpeg;base64" ++ "," ++ "QUJD")
      "look at this" "English" [{ role := Role.user, text := "hi" }]).2
     "data:image/jpeg;base64" "QUJD" (by decide) (by decide) rfl⟩

/-- C10: on a turn submitted with empty text and a pending image, the
appended user message carries the text "Analyze this image" while the
prompt forwarded to the vision call is the different string "What do you
see in this image?". -/
theorem imageOnly_turn_prompts_diverge (s : AppState) (o : TurnOracle) (img : String)
    (ht : s.input = "") (hi : s.image = some img) :
    (handleSend s none o).state.messages.take (s.messages.length + 1) =
      s.messages ++
        [{ role := Role.user, text := "Analyze this image", image := some img }] ∧
    (handleSend s none o).calls.head? =
      some (RemoteCall.analyze img "What do you see in this image?" s.messages
        s.selectedLanguage) ∧
    ("Analyze this image" : String) ≠ "What do you see in this image?" := by
  refine ⟨?_, ?_, by decide⟩ <;>
  · rcases o with ⟨dOut, sOut⟩
    rcases dOut with e | r
    · simp [handleSend, ht, hi, take_append_cons]
    · rcases hT : s.isTtsEnabled with _ | _
      · simp [handleSend, ht, hi, hT, take_append_cons]
      · rcases sOut with e | a <;> simp [handleSend, ht, hi, hT, take_append_cons]

/-- C10 witness: the divergence theorem applied to a concrete image-only
submission. -/
theorem imageOnly_turn_prompts_diverge_witness :
    (handleSend
        { messages := [], input := "", image := some "data:image/jpeg;base64,QUJD",
          isLoading := false, isTtsEnabled := true, selectedLanguage := "English",
          status := Status.idle } none
        { describeOutcome := Except.ok (some "hello"),
          speechOutcome := Except.ok none }).state.messages.take 1 =
      [] ++
        [{ role := Role.user, text := "Analyze this image",
           image := some "data:image/jpeg;base64,QUJD" }] ∧
    (handleSend
        { messages := [], input := "", image := some "data:image/jpeg;base64,QUJD",
          isLoading := false, isTtsEnabled := true, selectedLanguage := "English",
          status := Status.idle } none
        { describeOutcome := Except.ok (some "hello"),
          speechOutcome := Except.ok none }).calls.head? =
      some (RemoteCall.analyze "data:image/jpeg;base64,QUJD"
        "What do you see in this image?" [] "English") ∧
    ("Analyze this image" : String) ≠ "What do you see in this image?" :=
  imageOnly_turn_prompts_diverge
    { messages := [], input := "", image := some "data:image/jpeg;base64,QUJD",
      isLoading := false, isTtsEnabled := true, selectedLanguage := "English",
      status := Status.idle }
    { describeOutcome := Except.ok (some "hello"), speechOutcome := Except.ok none }
    "data:image/jpeg;base64,QUJD" rfl rfl

end VisionTalk
